import Mathlib

/-!
Shallow embedding of the pipeline orchestration layer of Kimera-VIO
(`src/pipeline/Pipeline.cpp`).

The embedding models the `VIO::Pipeline` class as a state structure whose
fields mirror the C++ data members that the orchestration logic reads and
writes (run-mode flag, shutdown flag, estimator-health flag, the three
queues, the mandatory and optional stage modules).  Each public operation
(`spinOnce`, `spinSequential`, `shutdown`, `stopThreads`, `resume`,
`shutdownWhenFinished`, the destructor) becomes a pure function from state
to state, additionally returning the ordered list of observable effects
(queue pushes, stage spins, module/queue shutdowns, thread joins, log
messages) that the C++ body performs, so that ordering claims can be
stated as equations on the effect trace.

The `ThreadsafeQueue` and `PipelineModule` classes are not part of the
two source files of this repository snapshot; their operational behaviour
(push appends at the tail, `shutdown` raises a flag without clearing
contents, `resume` clears the flag) is modelled from the specification,
and every such definition is marked `Modelled from the spec:` in its doc
comment.  Blocking is not observable in this sequential model, so the
capacity argument of `pushBlockingIfFull` is carried but has no
functional effect.
-/

/-- Observable effects performed by the pipeline orchestration code, in the
order the C++ statements execute them. -/
inductive Event where
  | pushFrontend
  | warnDroppedPacket
  | frontendSpin
  | backendSpin
  | mesherSpin
  | lcdSpin
  | visualizerSpin
  | displaySpin
  | logErrorAlreadyShutdown
  | shutdownCallback
  | dataProviderShutdown
  | backendQueueShutdown
  | backendModuleShutdown
  | frontendQueueShutdown
  | frontendModuleShutdown
  | mesherModuleShutdown
  | lcdModuleShutdown
  | visualizerModuleShutdown
  | displayQueueShutdown
  | displayModuleShutdown
  | joinAllThreads
  | logManualShutdownRequested
deriving DecidableEq

/-- Modelled from the spec: the generic thread-safe bounded FIFO
(`ThreadsafeQueue<T>`), an ordered sequence of items plus a shutdown
flag (spec section 4.1). -/
structure ThreadsafeQueue (α : Type) where
  items : List α
  shutdown_flag_ : Bool
deriving DecidableEq

/-- Modelled from the spec: `pushBlockingIfFull` inserts the item at the
tail; the capacity only blocks the producer, which is not observable in
this sequential model, and the source behaviour suggests silent
continuation for pushes on a shut-down queue (spec sections 4.1 and 9). -/
def ThreadsafeQueue.pushBlockingIfFull {α : Type} (q : ThreadsafeQueue α)
    (x : α) (_capacity : Nat) : ThreadsafeQueue α :=
  { q with items := q.items ++ [x] }

/-- Modelled from the spec: `shutdown()` sets the shutdown flag and does
not clear existing contents (drain-on-shutdown, spec section 4.1). -/
def ThreadsafeQueue.shutdown {α : Type} (q : ThreadsafeQueue α) :
    ThreadsafeQueue α :=
  { q with shutdown_flag_ := true }

/-- Modelled from the spec: `resume()` clears the shutdown flag, allowing
the queue to accept new work again (spec section 4.1). -/
def ThreadsafeQueue.resume {α : Type} (q : ThreadsafeQueue α) :
    ThreadsafeQueue α :=
  { q with shutdown_flag_ := false }

/-- Non-blocking observer `empty()` used by the completion-detection
logic. -/
def ThreadsafeQueue.empty {α : Type} (q : ThreadsafeQueue α) : Bool :=
  q.items.isEmpty

/-- Non-blocking observer `isShutdown()` used by the completion-detection
logic. -/
def ThreadsafeQueue.isShutdown {α : Type} (q : ThreadsafeQueue α) : Bool :=
  q.shutdown_flag_

/-- Modelled from the spec: the observable state of one pipeline stage
module (`PipelineModule`): whether its unit-of-work is currently
executing (`isWorking`) and whether shutdown has been requested
(spec section 4.2). -/
structure PipelineModule where
  is_working_ : Bool
  is_shutdown_ : Bool
deriving DecidableEq

/-- Modelled from the spec: a module's `shutdown()` requests the run loop
to terminate (spec section 4.2). -/
def PipelineModule.shutdown (m : PipelineModule) : PipelineModule :=
  { m with is_shutdown_ := true }

/-- The state of a `VIO::Pipeline` object: the data members of
`Pipeline.cpp` that its orchestration logic reads and writes.  Optional
stages (`mesher_module_`, `lcd_module_`, `visualizer_module_`,
`display_module_`) are `Option` values, mirroring possibly-null unique
pointers; `initialized_` abstracts `isInitialized()` (modelled from the
spec, since its definition lives outside the two source files);
`shutdown_pipeline_cb_` records whether an external shutdown callback is
registered. -/
structure Pipeline where
  parallel_run_ : Bool
  shutdown_ : Bool
  is_backend_ok_ : Bool
  initialized_ : Bool
  shutdown_pipeline_cb_ : Bool
  data_provider_module_ : PipelineModule
  vio_frontend_module_ : PipelineModule
  vio_backend_module_ : PipelineModule
  mesher_module_ : Option PipelineModule
  lcd_module_ : Option PipelineModule
  visualizer_module_ : Option PipelineModule
  display_module_ : Option PipelineModule
  stereo_frontend_input_queue_ : ThreadsafeQueue Nat
  backend_input_queue_ : ThreadsafeQueue Nat
  display_input_queue_ : ThreadsafeQueue Nat
deriving DecidableEq

/-- Modelled from the spec: the failure callback registered on the
backend flips the process-wide estimator-health flag to false and does
not itself force a stop (spec section 4.3, item 5). -/
def Pipeline.signalBackendFailure (st : Pipeline) : Pipeline :=
  { st with is_backend_ok_ := false }

/-- Output of the frontend module as consumed by the output callback
registered in the `Pipeline` constructor (`Pipeline.cpp` lines 130-147):
the keyframe flag plus the fields the callback copies into a
`BackendInput`.  Payload fields are abstracted to `Nat` identifiers. -/
structure FrontendOutput where
  is_keyframe_ : Bool
  stereo_frame_lkf_timestamp_ : Nat
  status_stereo_measurements_ : Nat
  tracker_status_ : Nat
  pim_ : Nat
  imu_acc_gyrs_ : Nat
  relative_pose_body_stereo_ : Nat
deriving DecidableEq

/-- The payload pushed into the backend input queue for a keyframe
(`Pipeline.cpp` lines 136-142). -/
structure BackendInput where
  timestamp_ : Nat
  status_stereo_measurements_ : Nat
  tracker_status_ : Nat
  pim_ : Nat
  imu_acc_gyrs_ : Nat
  relative_pose_body_stereo_ : Nat
deriving DecidableEq

/-- Construction of the `BackendInput` from a frontend output, field for
field as in the `make_unique<BackendInput>` call of the callback. -/
def mkBackendInput (o : FrontendOutput) : BackendInput :=
  { timestamp_ := o.stereo_frame_lkf_timestamp_
    status_stereo_measurements_ := o.status_stereo_measurements_
    tracker_status_ := o.tracker_status_
    pim_ := o.pim_
    imu_acc_gyrs_ := o.imu_acc_gyrs_
    relative_pose_body_stereo_ := o.relative_pose_body_stereo_ }

/-- The frontend output callback lambda registered in the `Pipeline`
constructor (`Pipeline.cpp` lines 131-147): push a `BackendInput` to the
backend input queue exactly when the output is a keyframe, otherwise
leave the queue untouched.  The queue is represented by its item list. -/
def frontendOutputCallback (q : List BackendInput) (o : FrontendOutput) :
    List BackendInput :=
  if o.is_keyframe_ then q ++ [mkBackendInput o] else q

/-- Effect of running the callback over a whole sequence of frontend
outputs, in order. -/
def processFrontendOutputs (q : List BackendInput)
    (outs : List FrontendOutput) : List BackendInput :=
  outs.foldl frontendOutputCallback q

/-- The body of `Pipeline::spinSequential` (`Pipeline.cpp` lines 299-317):
spin the frontend and backend modules, then each optional module that was
constructed, in the fixed order mesher, loop-closure, visualizer,
display.  The module internals are external collaborators, so a spin is
recorded as an effect; the pipeline state is unchanged. -/
def Pipeline.spinSequential (st : Pipeline) : List Event :=
  [Event.frontendSpin, Event.backendSpin]
    ++ (if st.mesher_module_.isSome then [Event.mesherSpin] else [])
    ++ (if st.lcd_module_.isSome then [Event.lcdSpin] else [])
    ++ (if st.visualizer_module_.isSome then [Event.visualizerSpin] else [])
    ++ (if st.display_module_.isSome then [Event.displaySpin] else [])

/-- Reasons a glog `CHECK` can fail in the modelled code. -/
inductive CheckFailure where
  | nullPacket
deriving DecidableEq

/-- The body of `Pipeline::spinOnce` (`Pipeline.cpp` lines 272-287).
`CHECK(stereo_imu_sync_packet)` aborts on a null packet before any other
statement, so the packet argument is an `Option` and the null case is an
error result.  Otherwise: when not shut down, push the packet to the
frontend input queue with capacity 5 and, in sequential mode, run
`spinSequential`; when shut down, drop the packet with a warning and
leave the state untouched. -/
def Pipeline.spinOnce (st : Pipeline) (stereo_imu_sync_packet : Option Nat) :
    Except CheckFailure (Pipeline × List Event) :=
  match stereo_imu_sync_packet with
  | none => Except.error CheckFailure.nullPacket
  | some p =>
    if st.shutdown_ = false then
      let st1 : Pipeline :=
        { st with stereo_frontend_input_queue_ :=
            st.stereo_frontend_input_queue_.pushBlockingIfFull p 5 }
      if st1.parallel_run_ = false then
        Except.ok (st1, Event.pushFrontend :: Pipeline.spinSequential st1)
      else
        Except.ok (st1, [Event.pushFrontend])
    else
      Except.ok (st, [Event.warnDroppedPacket])

/-- The body of `Pipeline::stopThreads` (`Pipeline.cpp` lines 521-541):
shut down the backend input queue and backend module, then the frontend
input queue and frontend module, then each constructed optional module,
and the display input queue only when the display module exists. -/
def Pipeline.stopThreads (st : Pipeline) : Pipeline × List Event :=
  let st1 : Pipeline :=
    { st with backend_input_queue_ := st.backend_input_queue_.shutdown
              vio_backend_module_ := st.vio_backend_module_.shutdown }
  let st2 : Pipeline :=
    { st1 with stereo_frontend_input_queue_ :=
                 st1.stereo_frontend_input_queue_.shutdown
               vio_frontend_module_ := st1.vio_frontend_module_.shutdown }
  let st3 : Pipeline :=
    { st2 with mesher_module_ := st2.mesher_module_.map PipelineModule.shutdown }
  let st4 : Pipeline :=
    { st3 with lcd_module_ := st3.lcd_module_.map PipelineModule.shutdown }
  let st5 : Pipeline :=
    { st4 with visualizer_module_ :=
                 st4.visualizer_module_.map PipelineModule.shutdown }
  let st6 : Pipeline :=
    if st5.display_module_.isSome then
      { st5 with display_input_queue_ := st5.display_input_queue_.shutdown
                 display_module_ :=
                   st5.display_module_.map PipelineModule.shutdown }
    else st5
  (st6,
    [Event.backendQueueShutdown, Event.backendModuleShutdown,
     Event.frontendQueueShutdown, Event.frontendModuleShutdown]
      ++ (if st.mesher_module_.isSome then [Event.mesherModuleShutdown] else [])
      ++ (if st.lcd_module_.isSome then [Event.lcdModuleShutdown] else [])
      ++ (if st.visualizer_module_.isSome then [Event.visualizerModuleShutdown]
          else [])
      ++ (if st.display_module_.isSome then
            [Event.displayQueueShutdown, Event.displayModuleShutdown]
          else []))

/-- The body of `Pipeline::shutdown` (`Pipeline.cpp` lines 451-476):
log an error if already shut down, raise the shutdown flag, invoke the
registered external shutdown callback if any, shut down the data
provider, run `stopThreads`, and join the worker threads exactly when in
parallel mode. -/
def Pipeline.shutdown (st : Pipeline) : Pipeline × List Event :=
  let errTrace := if st.shutdown_ = true then [Event.logErrorAlreadyShutdown]
                  else []
  let st1 : Pipeline := { st with shutdown_ := true }
  let cbTrace := if st1.shutdown_pipeline_cb_ = true then
                   [Event.shutdownCallback]
                 else []
  let st2 : Pipeline :=
    { st1 with data_provider_module_ := st1.data_provider_module_.shutdown }
  let r := Pipeline.stopThreads st2
  let joinTrace := if st.parallel_run_ = true then [Event.joinAllThreads]
                   else []
  (r.1, errTrace ++ cbTrace ++ [Event.dataProviderShutdown] ++ r.2 ++ joinTrace)

/-- The body of `Pipeline::~Pipeline` (`Pipeline.cpp` lines 261-269):
call `shutdown()` when not already shut down, otherwise only log that a
manual shutdown was requested. -/
def Pipeline.destructor (st : Pipeline) : Pipeline × List Event :=
  if st.shutdown_ = false then Pipeline.shutdown st
  else (st, [Event.logManualShutdownRequested])

/-- The body of `Pipeline::resume` (`Pipeline.cpp` lines 512-518): resume
the frontend and backend input queues; nothing else is touched. -/
def Pipeline.resume (st : Pipeline) : Pipeline :=
  { st with stereo_frontend_input_queue_ :=
              st.stereo_frontend_input_queue_.resume
            backend_input_queue_ := st.backend_input_queue_.resume }

/-- The big conjunction inside the `shutdownWhenFinished` loop condition
(`Pipeline.cpp` lines 342-352): the data has been consumed when no stage
is working and each of the three queues is shut down or empty, with
absent optional modules counting as not working. -/
def Pipeline.workFinished (st : Pipeline) : Bool :=
  !st.data_provider_module_.is_working_ &&
  (st.stereo_frontend_input_queue_.isShutdown ||
   st.stereo_frontend_input_queue_.empty) &&
  !st.vio_frontend_module_.is_working_ &&
  (st.backend_input_queue_.isShutdown || st.backend_input_queue_.empty) &&
  !st.vio_backend_module_.is_working_ &&
  (match st.mesher_module_ with
   | some m => !m.is_working_
   | none => true) &&
  (match st.lcd_module_ with
   | some m => !m.is_working_
   | none => true) &&
  (match st.visualizer_module_ with
   | some m => !m.is_working_
   | none => true) &&
  (st.display_input_queue_.isShutdown || st.display_input_queue_.empty) &&
  (match st.display_module_ with
   | some m => !m.is_working_
   | none => true)

/-- The `while` condition of `Pipeline::shutdownWhenFinished`
(`Pipeline.cpp` lines 337-352): loop while not explicitly shut down, the
backend is healthy, and either the pipeline is not initialized or the
queued data is not yet consumed. -/
def Pipeline.loopCond (st : Pipeline) : Bool :=
  !st.shutdown_ && st.is_backend_ok_ &&
    (!st.initialized_ || !Pipeline.workFinished st)

/-- Execution of `Pipeline::shutdownWhenFinished` (`Pipeline.cpp` lines
319-448).  Concurrent interference is modelled by `polls`, the sequence
of pipeline states the supervisory loop observes at its subsequent
evaluations of the condition.  One step: if the loop condition holds,
then in sequential mode return false (the body returns before a second
iteration); in parallel mode sleep and re-evaluate on the next observed
state, with `none` standing for a loop that is still running when the
modelled observations are exhausted.  If the condition fails, exit the
loop, call `shutdown()` when not already shut down, and return true. -/
def Pipeline.shutdownWhenFinishedGo :
    Pipeline → List Pipeline → Option (Bool × Pipeline × List Event)
  | st, polls =>
    if Pipeline.loopCond st = true then
      if st.parallel_run_ = false then
        some (false, st, [])
      else
        match polls with
        | [] => none
        | st2 :: rest => Pipeline.shutdownWhenFinishedGo st2 rest
    else if st.shutdown_ = false then
      some (true, (Pipeline.shutdown st).1, (Pipeline.shutdown st).2)
    else
      some (true, st, [])

/-- Spec-side reading of the claim about the supervisory loop: some queue
among the frontend, backend and display input queues is neither shut down
nor empty. -/
def SpecQueueBusy (st : Pipeline) : Prop :=
  (st.stereo_frontend_input_queue_.isShutdown = false ∧
     st.stereo_frontend_input_queue_.empty = false) ∨
  (st.backend_input_queue_.isShutdown = false ∧
     st.backend_input_queue_.empty = false) ∨
  (st.display_input_queue_.isShutdown = false ∧
     st.display_input_queue_.empty = false)

/-- Spec-side reading of the claim about the supervisory loop: some stage
(data provider, frontend, backend, or a constructed optional stage)
reports that it is working. -/
def SpecStageWorking (st : Pipeline) : Prop :=
  st.data_provider_module_.is_working_ = true ∨
  st.vio_frontend_module_.is_working_ = true ∨
  st.vio_backend_module_.is_working_ = true ∨
  (∃ m, st.mesher_module_ = some m ∧ m.is_working_ = true) ∨
  (∃ m, st.lcd_module_ = some m ∧ m.is_working_ = true) ∨
  (∃ m, st.visualizer_module_ = some m ∧ m.is_working_ = true) ∨
  (∃ m, st.display_module_ = some m ∧ m.is_working_ = true)

/-- A stage module that is idle and not shut down, used in concrete
scenarios. -/
def idleModule : PipelineModule :=
  { is_working_ := false, is_shutdown_ := false }

/-- An empty open queue of packets, used in concrete scenarios. -/
def emptyPacketQueue : ThreadsafeQueue Nat :=
  { items := [], shutdown_flag_ := false }

/-- A concrete running pipeline in parallel mode: initialized, healthy,
with a registered external shutdown callback, mesher and visualizer and
display constructed, loop closure disabled, and all queues empty. -/
def basePipeline : Pipeline :=
  { parallel_run_ := true
    shutdown_ := false
    is_backend_ok_ := true
    initialized_ := true
    shutdown_pipeline_cb_ := true
    data_provider_module_ := idleModule
    vio_frontend_module_ := idleModule
    vio_backend_module_ := idleModule
    mesher_module_ := some idleModule
    lcd_module_ := none
    visualizer_module_ := some idleModule
    display_module_ := some idleModule
    stereo_frontend_input_queue_ := emptyPacketQueue
    backend_input_queue_ := emptyPacketQueue
    display_input_queue_ := emptyPacketQueue }

/-- First concrete frontend output of the three-packet scenario: a
keyframe. -/
def kfOutput1 : FrontendOutput :=
  { is_keyframe_ := true
    stereo_frame_lkf_timestamp_ := 10
    status_stereo_measurements_ := 11
    tracker_status_ := 12
    pim_ := 13
    imu_acc_gyrs_ := 14
    relative_pose_body_stereo_ := 15 }

/-- Second concrete frontend output of the three-packet scenario: not a
keyframe. -/
def nonKfOutput2 : FrontendOutput :=
  { is_keyframe_ := false
    stereo_frame_lkf_timestamp_ := 20
    status_stereo_measurements_ := 21
    tracker_status_ := 22
    pim_ := 23
    imu_acc_gyrs_ := 24
    relative_pose_body_stereo_ := 25 }

/-- Third concrete frontend output of the three-packet scenario: a
keyframe. -/
def kfOutput3 : FrontendOutput :=
  { is_keyframe_ := true
    stereo_frame_lkf_timestamp_ := 30
    status_stereo_measurements_ := 31
    tracker_status_ := 32
    pim_ := 33
    imu_acc_gyrs_ := 34
    relative_pose_body_stereo_ := 35 }

/-- Helper: the frontend output callback, folded over any sequence of
outputs, appends to the backend input queue exactly the keyframe
outputs, transformed, in their original order. -/
theorem processFrontendOutputs_eq (q : List BackendInput)
    (outs : List FrontendOutput) :
    processFrontendOutputs q outs =
      q ++ (outs.filter (fun o => o.is_keyframe_)).map mkBackendInput := by
  induction outs generalizing q with
  | nil => simp [processFrontendOutputs]
  | cons o rest ih =>
    have hstep : processFrontendOutputs q (o :: rest) =
        processFrontendOutputs (frontendOutputCallback q o) rest := rfl
    rw [hstep, ih]
    by_cases h : o.is_keyframe_ = true <;>
      simp [frontendOutputCallback, h, List.filter_cons]

/-- C1: the frontend output callback registered in the Pipeline
constructor pushes a BackendInput to the backend input queue if and only
if the output's keyframe flag is set, preserving packet order; in
particular, for three packets of which the first and third are keyframes,
exactly the two corresponding items are delivered, in packet order. -/
theorem frontend_callback_keyframe_gating :
    (∀ (q : List BackendInput) (outs : List FrontendOutput),
        processFrontendOutputs q outs =
          q ++ (outs.filter (fun o => o.is_keyframe_)).map mkBackendInput) ∧
    processFrontendOutputs [] [kfOutput1, nonKfOutput2, kfOutput3] =
      [mkBackendInput kfOutput1, mkBackendInput kfOutput3] ∧
    (processFrontendOutputs [] [kfOutput1, nonKfOutput2, kfOutput3]).length
      = 2 := by
  refine ⟨processFrontendOutputs_eq, by decide, by decide⟩

/-- Helper: the effect trace of `Pipeline::shutdown`, flattened through
`stopThreads`: optional error log, optional external callback, data
provider shutdown, backend queue and module, frontend queue and module,
the constructed optional modules, display queue and module when the
display module exists, and thread joins exactly in parallel mode. -/
theorem shutdown_trace_eq (st : Pipeline) :
    (Pipeline.shutdown st).2 =
      (if st.shutdown_ = true then [Event.logErrorAlreadyShutdown] else []) ++
      (if st.shutdown_pipeline_cb_ = true then [Event.shutdownCallback]
       else []) ++
      [Event.dataProviderShutdown] ++
      [Event.backendQueueShutdown, Event.backendModuleShutdown,
       Event.frontendQueueShutdown, Event.frontendModuleShutdown] ++
      (if st.mesher_module_.isSome then [Event.mesherModuleShutdown]
       else []) ++
      (if st.lcd_module_.isSome then [Event.lcdModuleShutdown] else []) ++
      (if st.visualizer_module_.isSome then [Event.visualizerModuleShutdown]
       else []) ++
      (if st.display_module_.isSome then
         [Event.displayQueueShutdown, Event.displayModuleShutdown]
       else []) ++
      (if st.parallel_run_ = true then [Event.joinAllThreads] else []) := by
  simp [Pipeline.shutdown, Pipeline.stopThreads]

/-- A pipeline that has already been shut down (shutdown flag raised). -/
def alreadyShutdownPipeline : Pipeline :=
  { basePipeline with shutdown_ := true }

/-- A pipeline constructed without a display module (visualization
disabled). -/
def noDisplayPipeline : Pipeline :=
  { basePipeline with visualizer_module_ := none, display_module_ := none }

/-- Helper: the shutdown flag is raised after `Pipeline::shutdown`. -/
theorem shutdown_sets_flag (st : Pipeline) :
    (Pipeline.shutdown st).1.shutdown_ = true := by
  by_cases hd : st.display_module_.isSome <;>
    simp [Pipeline.shutdown, Pipeline.stopThreads, hd]

/-- C5 counterexample: on a pipeline constructed without a display
module, `Pipeline::shutdown` does not shut down the display input queue,
so step (c) of the claim ("shut down every stage module and every
queue") fails at this concrete input even though the call otherwise
completes and raises the shutdown flag. -/
theorem shutdown_skips_display_queue_counterexample :
    Event.displayQueueShutdown ∉ (Pipeline.shutdown noDisplayPipeline).2 ∧
    (Pipeline.shutdown noDisplayPipeline).1.display_input_queue_.isShutdown
      = false ∧
    (Pipeline.shutdown noDisplayPipeline).1.shutdown_ = true := by
  decide

/-- C5 (amended): every call to `Pipeline::shutdown` performs its effects
in this exact order: optional repeat-shutdown error log, (a) the
externally registered shutdown callback when registered, (b) the data
provider shutdown, (c) the shutdown of the backend input queue and
backend module, the frontend input queue and frontend module, each
constructed optional stage module, and the display input queue exactly
when the display module was constructed, and (d) the worker-thread joins
if and only if the pipeline runs in parallel mode. -/
theorem shutdown_effect_order (st : Pipeline) :
    (Pipeline.shutdown st).2 =
      (if st.shutdown_ = true then [Event.logErrorAlreadyShutdown] else []) ++
      (if st.shutdown_pipeline_cb_ = true then [Event.shutdownCallback]
       else []) ++
      [Event.dataProviderShutdown] ++
      [Event.backendQueueShutdown, Event.backendModuleShutdown,
       Event.frontendQueueShutdown, Event.frontendModuleShutdown] ++
      (if st.mesher_module_.isSome then [Event.mesherModuleShutdown]
       else []) ++
      (if st.lcd_module_.isSome then [Event.lcdModuleShutdown] else []) ++
      (if st.visualizer_module_.isSome then [Event.visualizerModuleShutdown]
       else []) ++
      (if st.display_module_.isSome then
         [Event.displayQueueShutdown, Event.displayModuleShutdown]
       else []) ++
      (if st.parallel_run_ = true then [Event.joinAllThreads] else []) ∧
    (Event.joinAllThreads ∈ (Pipeline.shutdown st).2 ↔
      st.parallel_run_ = true) ∧
    (Event.displayQueueShutdown ∈ (Pipeline.shutdown st).2 ↔
      st.display_module_.isSome = true) := by
  refine ⟨shutdown_trace_eq st, ?_, ?_⟩ <;>
    rw [shutdown_trace_eq st] <;> split_ifs <;> simp_all

/-- C2 counterexample: calling `Pipeline::shutdown` on a pipeline that is
already shut down is not a no-op with a single warning: at this concrete
input the call emits an error-level log (not a warning) and re-invokes
the registered shutdown callback, the data provider shutdown, and the
thread joins. -/
theorem second_shutdown_not_noop_counterexample :
    Event.logErrorAlreadyShutdown
        ∈ (Pipeline.shutdown alreadyShutdownPipeline).2 ∧
    Event.shutdownCallback ∈ (Pipeline.shutdown alreadyShutdownPipeline).2 ∧
    Event.dataProviderShutdown
        ∈ (Pipeline.shutdown alreadyShutdownPipeline).2 ∧
    Event.joinAllThreads ∈ (Pipeline.shutdown alreadyShutdownPipeline).2 := by
  decide

/-- C2 (amended): a second call to `Pipeline::shutdown` leaves the
pipeline in the same terminal state (it is idempotent on state), but it
logs an error-level message, not a warning, and it re-executes every
shutdown step: the same effect trace as the first call, prefixed by the
error log, including re-invoking the registered shutdown callback and,
in parallel mode, the thread joins. -/
theorem second_shutdown_same_state_error_log (st0 : Pipeline)
    (h : st0.shutdown_ = false) :
    (Pipeline.shutdown (Pipeline.shutdown st0).1).1
      = (Pipeline.shutdown st0).1 ∧
    (Pipeline.shutdown (Pipeline.shutdown st0).1).2
      = Event.logErrorAlreadyShutdown :: (Pipeline.shutdown st0).2 ∧
    (st0.shutdown_pipeline_cb_ = true →
      Event.shutdownCallback
        ∈ (Pipeline.shutdown (Pipeline.shutdown st0).1).2) ∧
    (st0.parallel_run_ = true →
      Event.joinAllThreads
        ∈ (Pipeline.shutdown (Pipeline.shutdown st0).1).2) := by
  obtain ⟨par, sd, ok, init, cb, dp, fe, be, mm, lm, vm, dm, q1, q2, q3⟩ := st0
  simp only [] at h
  cases mm <;> cases lm <;> cases vm <;> cases dm <;> cases par <;> cases cb <;>
    simp_all [Pipeline.shutdown, Pipeline.stopThreads,
      ThreadsafeQueue.shutdown, PipelineModule.shutdown]

/-- C2 witness: the amended second-shutdown theorem applied at the
concrete running pipeline. -/
theorem second_shutdown_same_state_error_log_witness :
    basePipeline.shutdown_ = false ∧
    (Pipeline.shutdown (Pipeline.shutdown basePipeline).1).1
      = (Pipeline.shutdown basePipeline).1 :=
  ⟨by decide, (second_shutdown_same_state_error_log basePipeline (by decide)).1⟩

/-- Helper: the data provider shutdown effect is always part of the
trace of `Pipeline::shutdown`. -/
theorem dataProvider_mem_shutdown_trace (st : Pipeline) :
    Event.dataProviderShutdown ∈ (Pipeline.shutdown st).2 := by
  rw [shutdown_trace_eq]
  simp

/-- Helper: the thread-join effect belongs to the trace of
`Pipeline::shutdown` exactly when the pipeline runs in parallel mode. -/
theorem join_mem_shutdown_iff (st : Pipeline) :
    Event.joinAllThreads ∈ (Pipeline.shutdown st).2 ↔
      st.parallel_run_ = true := by
  rw [shutdown_trace_eq]
  split_ifs <;> simp_all

/-- C9: the Pipeline destructor raises (or keeps) the shutdown flag,
performs the full shutdown effects (data provider shutdown) if and only
if the pipeline was not already shut down, joins worker threads if and
only if the pipeline was not already shut down and runs in parallel
mode, and on an already-shut-down pipeline it only logs that a manual
shutdown was requested, leaving the state untouched — so no thread joins
are attempted after an explicit shutdown. -/
theorem destructor_shutdown_iff_not_already (st : Pipeline) :
    (Pipeline.destructor st).1.shutdown_ = true ∧
    (Event.dataProviderShutdown ∈ (Pipeline.destructor st).2 ↔
      st.shutdown_ = false) ∧
    (Event.joinAllThreads ∈ (Pipeline.destructor st).2 ↔
      (st.shutdown_ = false ∧ st.parallel_run_ = true)) ∧
    (st.shutdown_ = true →
      (Pipeline.destructor st).1 = st ∧
      (Pipeline.destructor st).2 = [Event.logManualShutdownRequested]) := by
  by_cases h : st.shutdown_ = true
  · simp [Pipeline.destructor, h]
  · simp only [Bool.not_eq_true] at h
    refine ⟨?_, ?_, ?_, ?_⟩
    · simpa [Pipeline.destructor, h] using shutdown_sets_flag st
    · simp [Pipeline.destructor, h, dataProvider_mem_shutdown_trace st]
    · simp [Pipeline.destructor, h, join_mem_shutdown_iff st]
    · intro hc
      rw [h] at hc
      exact absurd hc (by decide)

/-- C9 witness: the destructor theorem applied at the concrete
already-shut-down pipeline, discharging the hypothesis of its final
conjunct. -/
theorem destructor_shutdown_iff_not_already_witness :
    alreadyShutdownPipeline.shutdown_ = true ∧
    (Pipeline.destructor alreadyShutdownPipeline).2
      = [Event.logManualShutdownRequested] :=
  ⟨by decide,
   ((destructor_shutdown_iff_not_already alreadyShutdownPipeline).2.2.2
     (by decide)).2⟩

/-- A concrete pipeline running in sequential mode, otherwise like
`basePipeline`. -/
def seqPipeline : Pipeline :=
  { basePipeline with parallel_run_ := false }

/-- A concrete sequential pipeline whose initialization has not completed
yet. -/
def notInitializedSeqPipeline : Pipeline :=
  { seqPipeline with initialized_ := false }

/-- C6: with the shutdown flag set, `Pipeline::spinOnce` with a non-null
packet drops the packet with a warning and leaves the whole pipeline
state — in particular the frontend input queue — unchanged. -/
theorem spinOnce_drops_packet_after_shutdown (st : Pipeline) (p : Nat)
    (h : st.shutdown_ = true) :
    Pipeline.spinOnce st (some p)
      = Except.ok (st, [Event.warnDroppedPacket]) := by
  simp [Pipeline.spinOnce, h]

/-- C6 witness: the drop-after-shutdown theorem applied at the concrete
already-shut-down pipeline. -/
theorem spinOnce_drops_packet_after_shutdown_witness :
    alreadyShutdownPipeline.shutdown_ = true ∧
    Pipeline.spinOnce alreadyShutdownPipeline (some 7)
      = Except.ok (alreadyShutdownPipeline, [Event.warnDroppedPacket]) :=
  ⟨by decide,
   spinOnce_drops_packet_after_shutdown alreadyShutdownPipeline 7 (by decide)⟩

/-- C7: in sequential mode with the pipeline not shut down,
`Pipeline::spinOnce` first pushes the packet into the frontend input
queue (the call passes the fixed capacity 5) and then drives exactly one
spin of every constructed stage in the fixed order frontend, backend,
mesher, loop closure, visualizer, display; stages that were not
constructed contribute no spin. -/
theorem spinOnce_sequential_drives_stages (st : Pipeline) (p : Nat)
    (h1 : st.shutdown_ = false) (h2 : st.parallel_run_ = false) :
    Pipeline.spinOnce st (some p) =
      Except.ok
        ({ st with stereo_frontend_input_queue_ :=
             st.stereo_frontend_input_queue_.pushBlockingIfFull p 5 },
         Event.pushFrontend ::
           ([Event.frontendSpin, Event.backendSpin]
             ++ (if st.mesher_module_.isSome then [Event.mesherSpin] else [])
             ++ (if st.lcd_module_.isSome then [Event.lcdSpin] else [])
             ++ (if st.visualizer_module_.isSome then [Event.visualizerSpin]
                 else [])
             ++ (if st.display_module_.isSome then [Event.displaySpin]
                 else []))) := by
  simp [Pipeline.spinOnce, Pipeline.spinSequential, h1, h2]

/-- C7 witness: the sequential spinOnce theorem applied at the concrete
sequential pipeline and packet 3. -/
theorem spinOnce_sequential_drives_stages_witness :
    seqPipeline.shutdown_ = false ∧ seqPipeline.parallel_run_ = false ∧
    Pipeline.spinOnce seqPipeline (some 3) =
      Except.ok
        ({ seqPipeline with stereo_frontend_input_queue_ :=
             seqPipeline.stereo_frontend_input_queue_.pushBlockingIfFull 3 5 },
         Event.pushFrontend ::
           ([Event.frontendSpin, Event.backendSpin]
             ++ (if seqPipeline.mesher_module_.isSome then [Event.mesherSpin]
                 else [])
             ++ (if seqPipeline.lcd_module_.isSome then [Event.lcdSpin]
                 else [])
             ++ (if seqPipeline.visualizer_module_.isSome then
                   [Event.visualizerSpin]
                 else [])
             ++ (if seqPipeline.display_module_.isSome then
                   [Event.displaySpin]
                 else []))) :=
  ⟨by decide, by decide,
   spinOnce_sequential_drives_stages seqPipeline 3 (by decide) (by decide)⟩

/-- C8: after shutdown, `Pipeline::resume` only re-opens the frontend and
backend input queues (clearing their shutdown flags, keeping their
contents): the pipeline shutdown flag and the display input queue are
untouched, so a subsequent `spinOnce` still drops its packet with a
warning and the pipeline processes no new work. -/
theorem resume_leaves_pipeline_terminal (st : Pipeline) (p : Nat)
    (h : st.shutdown_ = true) :
    (Pipeline.resume st).shutdown_ = st.shutdown_ ∧
    (Pipeline.resume st).display_input_queue_ = st.display_input_queue_ ∧
    (Pipeline.resume st).stereo_frontend_input_queue_.items
      = st.stereo_frontend_input_queue_.items ∧
    (Pipeline.resume st).stereo_frontend_input_queue_.isShutdown = false ∧
    (Pipeline.resume st).backend_input_queue_.items
      = st.backend_input_queue_.items ∧
    (Pipeline.resume st).backend_input_queue_.isShutdown = false ∧
    Pipeline.spinOnce (Pipeline.resume st) (some p)
      = Except.ok (Pipeline.resume st, [Event.warnDroppedPacket]) := by
  refine ⟨rfl, rfl, rfl, rfl, rfl, rfl, ?_⟩
  simp [Pipeline.spinOnce, Pipeline.resume, h]

/-- C8 witness: the resume theorem applied at the concrete
already-shut-down pipeline and packet 9. -/
theorem resume_leaves_pipeline_terminal_witness :
    alreadyShutdownPipeline.shutdown_ = true ∧
    Pipeline.spinOnce (Pipeline.resume alreadyShutdownPipeline) (some 9)
      = Except.ok (Pipeline.resume alreadyShutdownPipeline,
                   [Event.warnDroppedPacket]) :=
  ⟨by decide,
   (resume_leaves_pipeline_terminal alreadyShutdownPipeline 9
     (by decide)).2.2.2.2.2.2⟩

/-- C10: `Pipeline::spinOnce` fails its `CHECK` assertion on a null
packet before touching any queue, and with any non-null packet the
assertion branch is unreachable: the call always returns normally. -/
theorem spinOnce_null_packet_check (st : Pipeline) :
    Pipeline.spinOnce st none = Except.error CheckFailure.nullPacket ∧
    ∀ p : Nat, ∃ r, Pipeline.spinOnce st (some p) = Except.ok r := by
  refine ⟨rfl, fun p => ?_⟩
  simp only [Pipeline.spinOnce]
  split_ifs <;> exact ⟨_, rfl⟩

/-- Helper: the drained-and-idle conjunction of the supervisory loop is
false exactly when some queue is neither shut down nor empty or some
stage is working. -/
theorem workFinished_false_iff (st : Pipeline) :
    Pipeline.workFinished st = false ↔
      SpecQueueBusy st ∨ SpecStageWorking st := by
  obtain ⟨par, sd, ok, init, cb, dp, fe, be, mm, lm, vm, dm, q1, q2, q3⟩ := st
  cases mm <;> cases lm <;> cases vm <;> cases dm <;>
    · simp only [Pipeline.workFinished, SpecQueueBusy, SpecStageWorking,
        ThreadsafeQueue.isShutdown, ThreadsafeQueue.empty,
        Bool.and_eq_false_iff, Bool.or_eq_false_iff, Bool.not_eq_false',
        Option.some.injEq, reduceCtorEq, false_and, exists_false,
        exists_eq_left', or_false, false_or]
      itauto

/-- C4: once the backend failure callback has cleared the
estimator-health flag on a running pipeline, `shutdownWhenFinished`
exits at its next evaluation of the loop condition regardless of queued
work or working stages, triggers a full `shutdown()`, and returns true;
and the loop continuation condition holds exactly while the pipeline is
not explicitly shut down, the health flag is true, and either
initialization has not completed or some queue is neither shut down nor
empty or some stage is working. -/
theorem backend_failure_stops_supervisor (st : Pipeline)
    (polls : List Pipeline) :
    (st.shutdown_ = false →
      Pipeline.shutdownWhenFinishedGo (Pipeline.signalBackendFailure st) polls
        = some (true,
            (Pipeline.shutdown (Pipeline.signalBackendFailure st)).1,
            (Pipeline.shutdown (Pipeline.signalBackendFailure st)).2)) ∧
    (Pipeline.loopCond st = true ↔
      (st.shutdown_ = false ∧ st.is_backend_ok_ = true ∧
        (st.initialized_ = false ∨ SpecQueueBusy st ∨
          SpecStageWorking st))) := by
  constructor
  · intro h
    have hcond :
        Pipeline.loopCond (Pipeline.signalBackendFailure st) = false := by
      simp [Pipeline.loopCond, Pipeline.signalBackendFailure]
    have hsd : (Pipeline.signalBackendFailure st).shutdown_ = false := h
    rw [Pipeline.shutdownWhenFinishedGo.eq_def]
    simp [hcond, hsd]
  · rw [show (Pipeline.loopCond st = true) =
        ((!st.shutdown_ && st.is_backend_ok_ &&
          (!st.initialized_ || !Pipeline.workFinished st)) = true) from rfl]
    simp only [Bool.and_eq_true, Bool.or_eq_true, Bool.not_eq_true']
    rw [workFinished_false_iff]
    exact and_assoc

/-- C4 witness: the backend-failure theorem applied at the concrete
running pipeline with no further polls. -/
theorem backend_failure_stops_supervisor_witness :
    basePipeline.shutdown_ = false ∧
    Pipeline.shutdownWhenFinishedGo
        (Pipeline.signalBackendFailure basePipeline) []
      = some (true,
          (Pipeline.shutdown (Pipeline.signalBackendFailure basePipeline)).1,
          (Pipeline.shutdown (Pipeline.signalBackendFailure basePipeline)).2) :=
  ⟨by decide, (backend_failure_stops_supervisor basePipeline []).1 (by decide)⟩

/-- C3 counterexample: on a concrete sequential-mode pipeline that is
initialized, healthy, not shut down, with all queues drained and all
stages idle, `shutdownWhenFinished` does not return the "not finished"
indicator: its very first evaluation of the loop condition fails, so it
triggers a full `shutdown()` (the trace contains the data provider
shutdown) and returns true. -/
theorem sequential_supervisor_counterexample :
    seqPipeline.parallel_run_ = false ∧
    Pipeline.shutdownWhenFinishedGo seqPipeline []
      = some (true, (Pipeline.shutdown seqPipeline).1,
              (Pipeline.shutdown seqPipeline).2) ∧
    Event.dataProviderShutdown ∈ (Pipeline.shutdown seqPipeline).2 := by
  decide

/-- C3 (amended): in sequential mode, `shutdownWhenFinished` returns the
"not finished" indicator (false) after a single evaluation of the loop
condition, without triggering `shutdown()`, exactly when that first
evaluation finds the loop condition true; when the condition already
fails at the first evaluation, it instead triggers a full `shutdown()`
(unless the pipeline is already shut down) and returns true. -/
theorem sequential_supervisor_single_evaluation (st : Pipeline)
    (polls : List Pipeline) (h : st.parallel_run_ = false) :
    (Pipeline.loopCond st = true →
      Pipeline.shutdownWhenFinishedGo st polls = some (false, st, [])) ∧
    (Pipeline.loopCond st = false → st.shutdown_ = false →
      Pipeline.shutdownWhenFinishedGo st polls
        = some (true, (Pipeline.shutdown st).1, (Pipeline.shutdown st).2)) ∧
    (Pipeline.loopCond st = false → st.shutdown_ = true →
      Pipeline.shutdownWhenFinishedGo st polls = some (true, st, [])) := by
  refine ⟨fun hc => ?_, fun hc hs => ?_, fun hc hs => ?_⟩
  · rw [Pipeline.shutdownWhenFinishedGo.eq_def]
    simp [hc, h]
  · rw [Pipeline.shutdownWhenFinishedGo.eq_def]
    simp [hc, hs]
  · rw [Pipeline.shutdownWhenFinishedGo.eq_def]
    simp [hc, hs]

/-- C3 witness: the amended theorem applied at the concrete sequential
pipeline whose initialization has not completed, where the loop
condition holds at the first evaluation. -/
theorem sequential_supervisor_single_evaluation_witness :
    notInitializedSeqPipeline.parallel_run_ = false ∧
    Pipeline.loopCond notInitializedSeqPipeline = true ∧
    Pipeline.shutdownWhenFinishedGo notInitializedSeqPipeline []
      = some (false, notInitializedSeqPipeline, []) :=
  ⟨by decide, by decide,
   (sequential_supervisor_single_evaluation notInitializedSeqPipeline []
     (by decide)).1 (by decide)⟩
